import Mathlib

/-!
Verification development for the BNI chapter scraper (`bni_multi_scrape.py`).

Strings are modelled as `List Char` (Python `str`), optional values as
`Option`, Python dicts as insertion-ordered association lists, and the
browser-automation engine's view of a page as explicit page-state
structures.  Each definition is a shallow embedding of the corresponding
Python function; comments cite the source lines.
-/

namespace BniScrape

/-- Left-biased choice on `Option`, the value-level meaning of Python's
`x or y` / `if not x:` fallback chains (for values that are `None`/non-`None`). -/
def orO {α : Type} : Option α → Option α → Option α
  | some v, _ => some v
  | none, b => b

/-- Python's `\s` class and `str.strip()` whitespace, restricted to the ASCII
whitespace characters (space, tab, newline, carriage return, vertical tab,
form feed). -/
def isPyWs (c : Char) : Bool :=
  c == ' ' || c == '\t' || c == '\n' || c == '\r' || c == Char.ofNat 11 || c == Char.ofNat 12

/-- Characters removed by `re.sub(r"[\s\+\-\(\)\.]", "", ...)` in
`normalize_phone` (line 50). -/
def isPySep (c : Char) : Bool :=
  isPyWs c || c == '+' || c == '-' || c == '(' || c == ')' || c == '.'

/-- Python `str.strip()`: drop leading and trailing whitespace. -/
def pyStrip (l : List Char) : List Char :=
  ((l.dropWhile isPyWs).reverse.dropWhile isPyWs).reverse

/-- Python `x or None` for an optional string `x` (used on `phone_from_list`,
lines 219 and 493): empty strings and `None` both collapse to `None`. -/
def pyOrNone (p : Option (List Char)) : Option (List Char) :=
  match p with
  | some x => if x.isEmpty then none else some x
  | none => none

/-- Python `str.replace("tel:", "")`: remove every (non-overlapping,
left-to-right) occurrence of `tel:` (lines 241 and 256). -/
def stripTelAll : List Char → List Char
  | [] => []
  | 't' :: 'e' :: 'l' :: ':' :: t => stripTelAll t
  | c :: t => c :: stripTelAll t

/-- Python-dict lookup on an insertion-ordered association list. -/
def pyLookup {α β : Type} [DecidableEq α] : List (α × β) → α → Option β
  | [], _ => none
  | p :: t, k => if p.1 = k then some p.2 else pyLookup t k

/-- Python-dict assignment `d[k] = v` on an insertion-ordered association
list: overwrite in place if the key exists, append otherwise. -/
def pyDictSet {α β : Type} [DecidableEq α] : List (α × β) → α → β → List (α × β)
  | [], k, v => [(k, v)]
  | p :: t, k, v => if p.1 = k then (k, v) :: t else p :: pyDictSet t k v

/-- Key sequence of a Python dict modelled as an association list. -/
def pyKeys {α β : Type} (m : List (α × β)) : List α :=
  m.map Prod.fst

/-- Test used by `normalize_phone` line 57: `cleaned[0] in "6789"`
(`false` on the empty string, which line 57's length guard rules out). -/
def mobileLead : List Char → Bool
  | [] => false
  | c :: _ => "6789".data.contains c

/-- Shallow embedding of `normalize_phone` (`bni_multi_scrape.py` lines
42-59).  `None` and the empty string are Python-falsy (line 47); separators
are stripped (line 50); a `0091`/`91` country-code prefix is removed when the
resulting length matches (lines 52-55); the result is accepted when it has at
least 10 characters and its FIRST character is in `6789`, returning the
trailing 10 characters (lines 57-58). -/
def normalize_phone : Option (List Char) → Option (List Char)
  | none => none
  | some s =>
    if s.isEmpty then none
    else
      let c0 := s.filter (fun ch => !(isPySep ch))
      let cleaned :=
        if "0091".data.isPrefixOf c0 && c0.length == 13 then c0.drop 4
        else if "91".data.isPrefixOf c0 && c0.length == 12 then c0.drop 2
        else c0
      if 10 ≤ cleaned.length ∧ mobileLead cleaned then
        if 10 < cleaned.length then some (cleaned.drop (cleaned.length - 10))
        else some cleaned
      else none

/-- The separator/country-code stripping stage of `normalize_phone`
(lines 50-55), written as a standalone function for use in statements. -/
def cleanedOf (s : List Char) : List Char :=
  let c0 := s.filter (fun ch => !(isPySep ch))
  if "0091".data.isPrefixOf c0 && c0.length == 13 then c0.drop 4
  else if "91".data.isPrefixOf c0 && c0.length == 12 then c0.drop 2
  else c0

/-- Leading digit of the final 10 characters, the acceptance test as C1's
claim words it (the character at the position that BEGINS the final 10
characters must be in `6789`). -/
def leadOfLastTen (c : List Char) : Bool :=
  match c.drop (c.length - 10) with
  | ch :: _ => "6789".data.contains ch
  | [] => false

/-- Modelled from the words of claim C1 (not from the source): accept after
stripping iff the string has at least 10 characters and the character at the
position that begins its final 10 characters is in `6789`, returning the
trailing 10 characters. -/
def claimNormalize_phone : Option (List Char) → Option (List Char)
  | none => none
  | some s =>
    if s.isEmpty then none
    else
      let c := cleanedOf s
      if 10 ≤ c.length ∧ leadOfLastTen c then some (c.drop (c.length - 10))
      else none

/-! ### Regex engines for the three patterns the scraper uses

`re.search(r"(?:\+?91[-\s]?)?([6-9]\d{9})", s)` (lines 138, 156, 267),
`re.search(r"([6-9]\d{9})", s)` (lines 139, 157) and
`re.search(r"<bdi[^>]*>([^<]+)</bdi>", s, re.IGNORECASE)` (line 121),
each returning the captured group of the leftmost match.  Backtracking of
the greedy optional prefix is expanded into its four alternatives in the
order the Python engine tries them. -/

/-- Character class `[-\s]` of the optional separator inside the phone
pattern. -/
def isSepCls (c : Char) : Bool :=
  c == '-' || isPyWs c

/-- Attempt `([6-9]\d{9})` at the current position: exactly the next 10
characters, first in `6-9`, the rest decimal digits. -/
def grabMobile (l : List Char) : Option (List Char) :=
  match l.take 10 with
  | c :: rest =>
    if rest.length == 9 && "6789".data.contains c && rest.all Char.isDigit then
      some (c :: rest)
    else none
  | [] => none

/-- Attempt `(?:\+?91[-\s]?)?([6-9]\d{9})` at the current position, trying
the prefix alternatives in the Python engine's greedy order:
`+91` with separator, `+91`, `91` with separator, `91`, no prefix. -/
def mobileMatchAt (l : List Char) : Option (List Char) :=
  orO (match l with
       | '+' :: '9' :: '1' :: c :: t => if isSepCls c then grabMobile t else none
       | _ => none)
  (orO (match l with
        | '+' :: '9' :: '1' :: t => grabMobile t
        | _ => none)
  (orO (match l with
        | '9' :: '1' :: c :: t => if isSepCls c then grabMobile t else none
        | _ => none)
  (orO (match l with
        | '9' :: '1' :: t => grabMobile t
        | _ => none)
  (grabMobile l))))

/-- Leftmost search for the phone pattern with optional country prefix,
returning the captured 10-digit group. -/
def reSearchMobile : List Char → Option (List Char)
  | [] => none
  | c :: t => orO (mobileMatchAt (c :: t)) (reSearchMobile t)

/-- Leftmost search for the bare pattern `([6-9]\d{9})`. -/
def reSearchPlain : List Char → Option (List Char)
  | [] => none
  | c :: t => orO (grabMobile (c :: t)) (reSearchPlain t)

/-- Case-insensitive character equality (ASCII folding), for the
`re.IGNORECASE` flag. -/
def lowEq (a b : Char) : Bool :=
  a.toLower == b.toLower

/-- Case-insensitive prefix test. -/
def ciStartsWith : List Char → List Char → Bool
  | [], _ => true
  | _ :: _, [] => false
  | p :: ps, c :: cs => lowEq p c && ciStartsWith ps cs

/-- Attempt `<bdi[^>]*>([^<]+)</bdi>` (case-insensitive) at the current
position.  Both bracketed classes are greedy and cannot consume the
character that must follow them, so the match is deterministic. -/
def bdiMatchAt (l : List Char) : Option (List Char) :=
  if ciStartsWith "<bdi".data l then
    let r := l.drop 4
    let attrs := r.takeWhile (fun c => c != '>')
    match r.drop attrs.length with
    | '>' :: r3 =>
      let cap := r3.takeWhile (fun c => c != '<')
      if cap.isEmpty then none
      else if ciStartsWith "</bdi>".data (r3.drop cap.length) then some cap
      else none
    | _ => none
  else none

/-- Leftmost search for the `<bdi>` pattern, returning the captured inner
text. -/
def bdiSearch : List Char → Option (List Char)
  | [] => none
  | c :: t => orO (bdiMatchAt (c :: t)) (bdiSearch t)

/-! ### Listing harvest (`extract_profile_links_from_memberlist`, lines 73-193) -/

/-- An `<a>` element found in a row's first cell: its visible text and its
`href` attribute (`None` when the attribute is missing). -/
structure Anchor where
  text : List Char
  href : Option (List Char)
deriving DecidableEq

/-- One `<td>` of a listing row, as the scraper observes it: visible text,
raw markup, the inner text of its first `<bdi>` child (if any), and the
anchor in it (if any; only the first cell's anchor is used). -/
structure Cell where
  innerText : List Char
  innerHtml : List Char
  bdi : Option (List Char)
  anchor : Option Anchor
deriving DecidableEq

/-- One `<tr>` of the member-listing table. -/
structure Row where
  cells : List Cell
deriving DecidableEq

/-- MemberStub of the data model: the tuple
`(name, business, category, phone, profile_url)` (lines 75-79). -/
structure MemberStub where
  name : List Char
  business : List Char
  category : List Char
  phone : Option (List Char)
  profileUrl : List Char
deriving DecidableEq

/-- Phone search over all cells of one row (lines 103-169): first `<bdi>`
inner text per cell, then a `<bdi>` regex over raw markup, then the two
phone patterns over visible text, then the same patterns over raw markup;
each stage stops at the first cell yielding a valid normalization. -/
def rowPhone (cells : List Cell) : Option (List Char) :=
  let stage1 := cells.findSome? (fun c =>
    match c.bdi with
    | some b =>
      let t := pyStrip b
      if !t.isEmpty then normalize_phone (some t) else none
    | none => none)
  let stage2 := cells.findSome? (fun c =>
    match bdiSearch c.innerHtml with
    | some g =>
      let t := pyStrip g
      if !t.isEmpty then normalize_phone (some t) else none
    | none => none)
  let stage3 := cells.findSome? (fun c =>
    let t := pyStrip c.innerText
    if t.isEmpty then none
    else orO (match reSearchMobile t with
              | some g => normalize_phone (some g)
              | none => none)
             (match reSearchPlain t with
              | some g => normalize_phone (some g)
              | none => none))
  let stage4 := cells.findSome? (fun c =>
    orO (match reSearchMobile c.innerHtml with
         | some g => normalize_phone (some g)
         | none => none)
        (match reSearchPlain c.innerHtml with
         | some g => normalize_phone (some g)
         | none => none))
  orO stage1 (orO stage2 (orO stage3 stage4))

/-- Processing of one listing row (lines 88-176): skip rows with fewer than
3 cells, rows whose first cell has no anchor, and rows whose anchor has a
missing or empty (Python-falsy) `href`; otherwise produce a stub.  `ujoin`
is the URL-resolution collaborator (`urllib.parse.urljoin`), kept abstract
because no claim depends on its arithmetic. -/
def processRow (ujoin : List Char → List Char → List Char) (pageUrl : List Char)
    (row : Row) : Option MemberStub :=
  if h : row.cells.length < 3 then none
  else
    match (row.cells.get ⟨0, by omega⟩).anchor with
    | none => none
    | some link =>
      let name := pyStrip link.text
      let business := pyStrip (row.cells.get ⟨1, by omega⟩).innerText
      let category := pyStrip (row.cells.get ⟨2, by omega⟩).innerText
      let phone := rowPhone row.cells
      match link.href with
      | none => none
      | some href =>
        if href.isEmpty then none
        else some ⟨name, business, category, phone, ujoin pageUrl href⟩

/-- State of the listing view on one pagination step: the page's URL, its
table rows, and the `a[title="Next"]` control — `none` when absent,
`some cls` when present with class attribute `cls` (itself `none` when the
element has no class attribute, defaulted to `""` by line 181). -/
structure PageState where
  pageUrl : List Char
  rows : List Row
  nextBtn : Option (Option (List Char))
deriving DecidableEq

/-- Python's substring test `pat in s`. -/
def containsSub (pat : List Char) : List Char → Bool
  | [] => pat.isEmpty
  | c :: t => pat.isPrefixOf (c :: t) || containsSub pat t

/-- Loop exit test of lines 178-183: stop when the next control is absent or
its class contains the substring `disabled`. -/
def stops (p : PageState) : Bool :=
  match p.nextBtn with
  | none => true
  | some cls => containsSub "disabled".data (cls.getD [])

/-- The pagination loop of lines 84-187 over the sequence of page states the
site presents: harvest the current page's rows, then stop or continue per
`stops`.  Returns the accumulated stubs and the number of pages visited
(the supplied list is the schedule of states reached by clicking Next; the
end-of-list case is unreachable while `stops` keeps failing). -/
def harvestPages (ujoin : List Char → List Char → List Char) :
    List PageState → List MemberStub × Nat
  | [] => ([], 0)
  | p :: rest =>
    let stubs := p.rows.filterMap (processRow ujoin p.pageUrl)
    if stops p then (stubs, 1)
    else (stubs ++ (harvestPages ujoin rest).1, (harvestPages ujoin rest).2 + 1)

/-- De-duplication by profile URL (lines 189-193): a Python dict keyed by
`t[4]`, written in harvest order, then its value view. -/
def dedupeByUrl (ts : List MemberStub) : List MemberStub :=
  (ts.foldl (fun m t => pyDictSet m t.profileUrl t) []).map Prod.snd

/-- The full listing harvest (lines 73-193): paginate, then de-duplicate. -/
def extract_profile_links_from_memberlist (ujoin : List Char → List Char → List Char)
    (pages : List PageState) : List MemberStub :=
  dedupeByUrl (harvestPages ujoin pages).1

/-! ### Profile extraction (`scrape_profile`, lines 196-325) -/

/-- What the profile page offers to the extractor:
`telLink` — the first `a[href^="tel:"]` (outer `Option`: element present?;
inner: its `href` attribute);
`contactTel` — the `.memberContactDetails a[href^='tel:']` element (inner
text, `href` attribute);
`contact` — inner text of `.memberContactDetails`;
`myBusinessEval` — the string returned by the `widgetMemberTxtVideo`
in-page script of lines 276-288 (`''` when that block or its heading is
missing);
`headings` — the `.widgetProfile .rowTwoCol h3` elements in document order,
each with the inner text of its next sibling (`''` when absent, line 302). -/
structure ProfilePage where
  telLink : Option (Option (List Char))
  contactTel : Option (List Char × Option (List Char))
  contact : Option (List Char)
  myBusinessEval : List Char
  headings : List (List Char × List Char)
deriving DecidableEq

/-- Step 1 of the phone extraction (lines 237-243): the direct
`a[href^="tel:"]` link's target, with `tel:` removed and the result
normalized; `none` on any guard failure (which leaves the seeded phone in
place via `or phone`). -/
def telStep (pg : ProfilePage) : Option (List Char) :=
  match pg.telLink with
  | none => none
  | some none => none
  | some (some href) =>
    if !href.isEmpty && "tel:".data.isPrefixOf href then
      normalize_phone (some (pyStrip (stripTelAll href)))
    else none

/-- Step 2 (lines 246-258): the contact-details `tel:` link, visible text
first, then its target. -/
def contactTelStep (pg : ProfilePage) : Option (List Char) :=
  match pg.contactTel with
  | none => none
  | some (txt, hrefOpt) =>
    let t := pyStrip txt
    orO (if !t.isEmpty then normalize_phone (some t) else none)
        (match hrefOpt with
         | some h2 =>
           if !h2.isEmpty && "tel:".data.isPrefixOf h2 then
             normalize_phone (some (pyStrip (stripTelAll h2)))
           else none
         | none => none)

/-- Step 3 (lines 261-271): the phone regex over the contact-details text. -/
def contactRegexStep (pg : ProfilePage) : Option (List Char) :=
  match pg.contact with
  | none => none
  | some blob =>
    match reSearchMobile (pyStrip blob) with
    | some g => normalize_phone (some g)
    | none => none

/-- The phone value of a successfully loaded profile (lines 235-271):
pre-seeded with the normalized listing phone, overridden by step 1 when it
hits, with steps 2 and 3 tried only while the value is still `None`. -/
def phoneSeq (b : MemberStub) (pg : ProfilePage) : Option (List Char) :=
  let phone := normalize_phone b.phone
  let phone := orO (telStep pg) phone
  let phone := if phone = none then contactTelStep pg else phone
  if phone = none then contactRegexStep pg else phone

/-- The five recognized section titles, `TARGET_SECTIONS` (lines 15-21). -/
def targetTitles : List (List Char) :=
  ["My Business".data, "Top Product".data, "Ideal Referral".data,
   "Top Problem Solved".data, "My Favourite BNI Story".data]

/-- The `section_data` dict (line 293), with one optional slot per
recognized title. -/
structure Sections where
  myBusiness : Option (List Char)
  topProduct : Option (List Char)
  idealReferral : Option (List Char)
  topProblemSolved : Option (List Char)
  myFavouriteStory : Option (List Char)
deriving DecidableEq

/-- Line 293: every slot starts as `None`. -/
def initSections : Sections :=
  ⟨none, none, none, none, none⟩

/-- One iteration of the heading scan (lines 298-304): strip the `h3` text,
and when it is a recognized title, store the stripped sibling text (or
`None` when that is empty). -/
def applyHeading (sd : Sections) (h : List Char × List Char) : Sections :=
  let title := pyStrip h.1
  let value := pyStrip h.2
  let v := if value.isEmpty then none else some value
  if title = "My Business".data then { sd with myBusiness := v }
  else if title = "Top Product".data then { sd with topProduct := v }
  else if title = "Ideal Referral".data then { sd with idealReferral := v }
  else if title = "Top Problem Solved".data then { sd with topProblemSolved := v }
  else if title = "My Favourite BNI Story".data then { sd with myFavouriteStory := v }
  else sd

/-- The heading scan over all `h3` elements (a heading-wait timeout, line
305, behaves like an empty heading list). -/
def sectionsOf (hs : List (List Char × List Char)) : Sections :=
  hs.foldl applyHeading initSections

/-- The `my_business` value (lines 274-291 and 308-310): the dedicated
`widgetMemberTxtVideo` extraction, falling back to the generic section
scan's `My Business` slot. -/
def myBusinessOf (pg : ProfilePage) : Option (List Char) :=
  let t := pyStrip pg.myBusinessEval
  let mb := if t.isEmpty then none else some t
  match mb with
  | some v => some v
  | none => (sectionsOf pg.headings).myBusiness

/-- A member record as the Python code builds it: a dict from string keys to
optional string values, in insertion order. -/
abbrev RecordAssoc := List (String × Option (List Char))

/-- The record returned on a successful page load (lines 312-323). -/
def scrape_profile_ok (b : MemberStub) (pg : ProfilePage) : RecordAssoc :=
  let sd := sectionsOf pg.headings
  [("name", some b.name), ("business", some b.business),
   ("category", some b.category),
   ("phone", phoneSeq b pg),
   ("my_business", myBusinessOf pg),
   ("top_product", sd.topProduct),
   ("ideal_referral", sd.idealReferral),
   ("top_problem_solved", sd.topProblemSolved),
   ("my_favourite_bni_story", sd.myFavouriteStory)]

/-- The degraded record returned when navigation fails twice (lines
214-228).  Note: no `my_business` key, and the listing phone passes through
`or None`, not the normalizer. -/
def degradedGotoRecord (b : MemberStub) (e : List Char) : RecordAssoc :=
  [("name", some b.name), ("business", some b.business),
   ("category", some b.category),
   ("phone", pyOrNone b.phone),
   ("top_product", none), ("ideal_referral", none),
   ("top_problem_solved", none), ("my_favourite_bni_story", none),
   ("_error", some ("profile_goto_failed: ".data ++ e))]

/-- The navigation retry loop (lines 205-213), `for attempt in range(2)`
unrolled: per-attempt outcomes come from `goto`; the result is the final
`last_err` together with the list of `wait_for_timeout(600 * (attempt + 1))`
delays performed. -/
def scrape_profile_nav (goto : Nat → Except (List Char) Unit) :
    Option (List Char) × List Nat :=
  match goto 0 with
  | Except.ok _ => (none, [])
  | Except.error _ =>
    match goto 1 with
    | Except.ok _ => (none, [600 * 1])
    | Except.error e1 => (some e1, [600 * 1, 600 * 2])

/-- `scrape_profile` (lines 196-325): degraded record when both navigation
attempts fail, full extraction otherwise. -/
def scrape_profile (goto : Nat → Except (List Char) Unit) (b : MemberStub)
    (pg : ProfilePage) : RecordAssoc :=
  match (scrape_profile_nav goto).1 with
  | some e => degradedGotoRecord b e
  | none => scrape_profile_ok b pg

/-! ### Chapter worker (`scrape_chapter`, lines 457-511) -/

/-- The degraded record the worker synthesizes when `scrape_profile` raises
(lines 487-500). -/
def degradedWorkerRecord (b : MemberStub) (e : List Char) : RecordAssoc :=
  [("name", some b.name), ("business", some b.business),
   ("category", some b.category),
   ("phone", pyOrNone b.phone),
   ("top_product", none), ("ideal_referral", none),
   ("top_problem_solved", none), ("my_favourite_bni_story", none),
   ("_error", some ("profile_failed: ".data ++ e)),
   ("_profile_url", some b.profileUrl)]

/-- The per-stub worker (lines 483-502): catch a raising profile fetch,
convert it to a degraded record, and tag every record with the chapter
name.  `fetch` abstracts the awaited `scrape_profile` call: `Except.error e`
models a raised exception with message `e`. -/
def worker (chapterName : List Char)
    (fetch : MemberStub → Except (List Char) RecordAssoc)
    (b : MemberStub) : RecordAssoc :=
  let data :=
    match fetch b with
    | Except.ok d => d
    | Except.error e => degradedWorkerRecord b e
  pyDictSet data "chapter" (some chapterName)

/-- The chapter's member list (line 505): `asyncio.gather` keeps one result
per stub, in stub order. -/
def chapterMembers (chapterName : List Char)
    (fetch : MemberStub → Except (List Char) RecordAssoc)
    (stubs : List MemberStub) : List RecordAssoc :=
  stubs.map (worker chapterName fetch)

/-- Does a record carry a non-null error tag? -/
def errTag (r : RecordAssoc) : Bool :=
  match pyLookup r "_error" with
  | some (some _) => true
  | _ => false

/-- The five free-text section keys as they appear in the output records. -/
def sectionKeys : List String :=
  ["my_business", "top_product", "ideal_referral", "top_problem_solved",
   "my_favourite_bni_story"]

/-- Modelled from the words of the spec's section 3 data model (not from the
source): the field names claim C8 asserts for every output object. -/
def specFieldNames : List String :=
  ["name", "business", "category", "phone", "myBusiness", "topProduct",
   "idealReferral", "topProblemSolved", "myFavouriteStory", "chapter",
   "error"]

/-- Modelled from the words of claim C3 (not from the source): contact-number
priority with the three page-derived steps first and the listing-stub phone
only as the fallback when all three miss. -/
def claimProfilePhone (stubPhone : Option (List Char)) (pg : ProfilePage) :
    Option (List Char) :=
  orO (telStep pg)
    (orO (contactTelStep pg)
      (orO (contactRegexStep pg) (normalize_phone stubPhone)))

/-! ### Concrete fixtures used by witnesses and counterexamples -/

/-- A concrete URL-resolution function for witnesses (the claims under test
hold for every such function). -/
def ujFix : List Char → List Char → List Char := fun _ h => h

/-- A concrete listing stub with a valid phone. -/
def stubFix : MemberStub :=
  ⟨"A".data, "B".data, "C".data, some "9876543210".data, "u".data⟩

/-- A profile page with no `tel:` links at all, whose contact-details
region carries a different valid phone as plain text (a layout the source
comments at lines 231-234 describe). -/
def pageContactFix : ProfilePage :=
  ⟨none, none, some "Phone: 8888888888".data, [], []⟩

/-- A profile page offering nothing: no phone markup, no headings. -/
def pageEmptyFix : ProfilePage :=
  ⟨none, none, none, [], []⟩

/-- Navigation that fails on every attempt. -/
def gotoFailFix : Nat → Except (List Char) Unit :=
  fun _ => Except.error "timeout".data

/-- Navigation that succeeds immediately. -/
def gotoOkFix : Nat → Except (List Char) Unit :=
  fun _ => Except.ok ()

/-- Three stubs for the partial-failure scenario; the middle one's URL is
the one whose fetch raises. -/
def stubFix1 : MemberStub := ⟨"N1".data, "B1".data, "C1".data, none, "u1".data⟩

def stubFix2 : MemberStub :=
  ⟨"N2".data, "B2".data, "C2".data, some "9000000001".data, "u2".data⟩

def stubFix3 : MemberStub := ⟨"N3".data, "B3".data, "C3".data, none, "u3".data⟩

/-- A fetch oracle raising exactly on `stubFix2`'s URL. -/
def fetchFix : MemberStub → Except (List Char) RecordAssoc :=
  fun s => if s.profileUrl = "u2".data then Except.error "boom".data
           else Except.ok []

/-- A cell with plain text and no anchor or `<bdi>`. -/
def cellN : Cell := ⟨"x".data, "x".data, none, none⟩

/-- A row with three cells whose first cell holds no anchor. -/
def rowNoAnchorFix : Row := ⟨[cellN, cellN, cellN]⟩

/-- A two-page listing whose Next control reports `disabled` on page 2. -/
def pagesFix : List PageState :=
  [⟨"p1".data, [], some (some "next".data)⟩,
   ⟨"p2".data, [], some (some "next disabled".data)⟩]

/-! ### Helper lemmas -/

theorem orO_none_right {α : Type} (a : Option α) : orO a none = a := by
  cases a <;> rfl

theorem orO_assoc {α : Type} (a b c : Option α) :
    orO (orO a b) c = orO a (orO b c) := by
  cases a <;> rfl

theorem ite_none_eq_orO {α : Type} [DecidableEq α] (p q : Option α) :
    (if p = none then q else p) = orO p q := by
  cases p <;> simp [orO]

theorem pyLookup_pyDictSet {α β : Type} [DecidableEq α]
    (m : List (α × β)) (k k' : α) (v : β) :
    pyLookup (pyDictSet m k v) k' = if k' = k then some v else pyLookup m k' := by
  induction m with
  | nil =>
    by_cases h : k' = k
    · subst h; simp [pyDictSet, pyLookup]
    · simp [pyDictSet, pyLookup, h, show ¬k = k' from fun hh => h hh.symm]
  | cons p t ih =>
    by_cases hp : p.1 = k
    · by_cases h : k' = k
      · subst h; simp [pyDictSet, hp, pyLookup]
      · simp [pyDictSet, hp, pyLookup, h,
          show ¬k = k' from fun hh => h hh.symm,
          show ¬p.1 = k' from hp ▸ fun hh => h hh.symm]
    · by_cases h : k' = k
      · subst h; simp [pyDictSet, hp, pyLookup, ih,
          show ¬p.1 = k' from hp]
      · simp [pyDictSet, hp, pyLookup, ih, h]

theorem mem_pyKeys_pyDictSet {α β : Type} [DecidableEq α]
    (m : List (α × β)) (k a : α) (v : β) :
    a ∈ pyKeys (pyDictSet m k v) ↔ a ∈ pyKeys m ∨ a = k := by
  induction m with
  | nil => simp [pyDictSet, pyKeys]
  | cons p t ih =>
    by_cases hp : p.1 = k
    · subst hp; simp [pyDictSet, pyKeys]; tauto
    · simp [pyDictSet, hp, pyKeys] at ih ⊢; tauto

theorem nodup_pyKeys_pyDictSet {α β : Type} [DecidableEq α]
    (m : List (α × β)) (k : α) (v : β) (h : (pyKeys m).Nodup) :
    (pyKeys (pyDictSet m k v)).Nodup := by
  induction m with
  | nil => simp [pyDictSet, pyKeys]
  | cons p t ih =>
    simp only [pyKeys, List.map_cons, List.nodup_cons] at h
    by_cases hp : p.1 = k
    · subst hp
      have hset : pyDictSet (p :: t) p.1 v = (p.1, v) :: t := by
        simp [pyDictSet]
      rw [hset]
      simp only [pyKeys, List.map_cons, List.nodup_cons]
      exact ⟨h.1, h.2⟩
    · simp only [pyDictSet, if_neg hp, pyKeys, List.map_cons, List.nodup_cons]
      refine ⟨?_, ih h.2⟩
      intro hmem
      rcases (mem_pyKeys_pyDictSet t k p.1 v).mp (by simpa [pyKeys] using hmem)
        with hin | heq
      · exact h.1 (by simpa [pyKeys] using hin)
      · exact hp heq

theorem getLast?_cons_orO {α : Type} (a : α) (l : List α) :
    (a :: l).getLast? = orO l.getLast? (some a) := by
  induction l generalizing a with
  | nil => rfl
  | cons b t ih =>
    rw [List.getLast?_cons_cons, ih b, orO_assoc]
    rfl

theorem urlKeyed_pyDictSet (m : List (List Char × MemberStub)) (t : MemberStub)
    (h : ∀ q ∈ m, q.2.profileUrl = q.1) :
    ∀ q ∈ pyDictSet m t.profileUrl t, q.2.profileUrl = q.1 := by
  induction m with
  | nil => intro q hq; simp [pyDictSet] at hq; subst hq; rfl
  | cons p tl ih =>
    intro q hq
    by_cases hp : p.1 = t.profileUrl
    · simp only [pyDictSet, if_pos hp] at hq
      rcases List.mem_cons.mp hq with rfl | hmem
      · rfl
      · exact h q (List.mem_cons_of_mem p hmem)
    · simp only [pyDictSet, if_neg hp] at hq
      rcases List.mem_cons.mp hq with rfl | hmem
      · exact h q (List.mem_cons_self q tl)
      · exact ih (fun r hr => h r (List.mem_cons_of_mem p hr)) q hmem

theorem dedupeFold_urlKeyed (ts : List MemberStub) :
    ∀ (m : List (List Char × MemberStub)),
      (∀ q ∈ m, q.2.profileUrl = q.1) →
      ∀ q ∈ ts.foldl (fun m t => pyDictSet m t.profileUrl t) m,
        q.2.profileUrl = q.1 := by
  induction ts with
  | nil => intro m hm; exact hm
  | cons t ts ih =>
    intro m hm
    exact ih _ (urlKeyed_pyDictSet m t hm)

theorem dedupeFold_nodup (ts : List MemberStub) :
    ∀ (m : List (List Char × MemberStub)),
      (pyKeys m).Nodup →
      (pyKeys (ts.foldl (fun m t => pyDictSet m t.profileUrl t) m)).Nodup := by
  induction ts with
  | nil => intro m hm; exact hm
  | cons t ts ih =>
    intro m hm
    exact ih _ (nodup_pyKeys_pyDictSet m t.profileUrl t hm)

theorem dedupeFold_lookup (u : List Char) (ts : List MemberStub) :
    ∀ (m : List (List Char × MemberStub)),
      pyLookup (ts.foldl (fun m t => pyDictSet m t.profileUrl t) m) u
        = orO ((ts.filter (fun t => t.profileUrl = u)).getLast?) (pyLookup m u) := by
  induction ts with
  | nil => intro m; simp [orO]
  | cons t ts ih =>
    intro m
    rw [List.foldl_cons, ih, pyLookup_pyDictSet]
    by_cases hu : t.profileUrl = u
    · rw [List.filter_cons_of_pos (by simpa using hu), getLast?_cons_orO, orO_assoc,
        if_pos hu.symm]
      rfl
    · rw [List.filter_cons_of_neg (by simpa using hu),
        if_neg (fun hh => hu hh.symm)]

theorem values_filter_eq_lookup (u : List Char) (m : List (List Char × MemberStub))
    (hkeys : (pyKeys m).Nodup) (hinv : ∀ q ∈ m, q.2.profileUrl = q.1) :
    (m.map Prod.snd).filter (fun s => s.profileUrl = u) = (pyLookup m u).toList := by
  induction m with
  | nil => simp [pyLookup]
  | cons p t ih =>
    simp only [pyKeys, List.map_cons, List.nodup_cons] at hkeys
    have hp : p.2.profileUrl = p.1 := hinv p (List.mem_cons_self p t)
    by_cases hu : p.2.profileUrl = u
    · have hp1 : p.1 = u := hp ▸ hu
      rw [List.map_cons, List.filter_cons_of_pos (by simpa using hu)]
      have hnil : (t.map Prod.snd).filter (fun s => s.profileUrl = u) = [] := by
        rw [List.filter_eq_nil_iff]
        intro s hs
        rcases List.mem_map.mp hs with ⟨q, hq, rfl⟩
        intro hsu
        have hqu : q.1 = u := by
          rw [← hinv q (List.mem_cons_of_mem p hq)]
          simpa using hsu
        apply hkeys.1
        have hpq : p.1 = q.1 := by rw [hp1, hqu]
        rw [hpq]
        exact List.mem_map.mpr ⟨q, hq, rfl⟩
      rw [hnil]
      simp [pyLookup, hp1]
    · have hp1 : ¬p.1 = u := fun hh => hu (hp.trans hh)
      rw [List.map_cons, List.filter_cons_of_neg (by simpa using hu)]
      rw [ih hkeys.2 (fun q hq => hinv q (List.mem_cons_of_mem p hq))]
      simp [pyLookup, hp1]

/-! ### Claim C1 -/

/-- C1, counterexample.  The claim states that acceptance tests the
character at the position that begins the final 10 characters of the
stripped string.  On input `"61111111111"` (11 characters, no
country-code prefix) that character is `'1'`, so the claim demands `null`;
`normalize_phone` instead tests the FIRST character (`'6'`) and returns
`"1111111111"`.  `claimNormalize_phone` is the claim's own wording as a
function. -/
theorem normalize_phone_last_ten_check_refuted :
    normalize_phone (some "61111111111".data) = some "1111111111".data
    ∧ claimNormalize_phone (some "61111111111".data) = none := by
  decide

/-- C1, amended: after stripping separators and a recognized country-code
prefix, `normalize_phone` accepts exactly when the stripped string has at
least 10 characters and its FIRST character (not the character that begins
the final 10) is one of `6`, `7`, `8`, `9`, and then returns the trailing
10 characters; in every other case it returns null. -/
theorem normalize_accept_core (cl : List Char) :
    (if 10 ≤ cl.length ∧ mobileLead cl then
       if 10 < cl.length then some (cl.drop (cl.length - 10)) else some cl
     else none)
    = if 10 ≤ cl.length ∧ mobileLead cl then
        some (cl.drop (cl.length - 10))
      else none := by
  split_ifs with h1 h2
  · rfl
  · have h0 : cl.length - 10 = 0 := by omega
    rw [h0, List.drop_zero]
  · rfl

theorem normalize_phone_first_char_spec (s : List Char) :
    normalize_phone (some s)
      = if 10 ≤ (cleanedOf s).length ∧ mobileLead (cleanedOf s) then
          some ((cleanedOf s).drop ((cleanedOf s).length - 10))
        else none := by
  rcases s with _ | ⟨c, t⟩
  · decide
  · simp only [normalize_phone, cleanedOf, List.isEmpty_cons, Bool.false_eq_true,
      if_false]
    exact normalize_accept_core _

/-! ### Claim C2 -/

/-- C2, refuting idempotence as the code behaves (the code is the one at
fault here: its own comment says it extracts a 10-digit phone starting
with 6-9, but on `"62111111111"` it returns `"2111111111"`, which its own
acceptance test then rejects, so a second normalization yields null). -/
theorem normalize_phone_not_idempotent :
    normalize_phone (some "62111111111".data) = some "2111111111".data
    ∧ normalize_phone (normalize_phone (some "62111111111".data)) = none := by
  decide

/-! ### Claim C5 -/

/-- C5 (confirmed): after de-duplication by profile URL, the stubs whose
URL is `u` are exactly the last stub with URL `u` observed in harvest
order (and none when `u` was never observed) — one survivor per distinct
URL, overwrite semantics. -/
theorem dedupe_last_wins (ts : List MemberStub) (u : List Char) :
    (dedupeByUrl ts).filter (fun s => s.profileUrl = u)
      = ((ts.filter (fun t => t.profileUrl = u)).getLast?).toList := by
  unfold dedupeByUrl
  rw [values_filter_eq_lookup u _
      (dedupeFold_nodup ts [] (by simp [pyKeys]))
      (dedupeFold_urlKeyed ts [] (by intro q hq; simp at hq)),
    dedupeFold_lookup u ts []]
  simp [pyLookup, orO_none_right]

/-! ### Claim C6 -/

/-- C6 (confirmed): when the Next control first reports absent/disabled on
page `k` (and on no earlier page), the harvest loop visits exactly `k`
pages; the state of that control is the only thing the loop inspects to
stop. -/
theorem pagination_visits_exactly_k (ujoin : List Char → List Char → List Char)
    (pages : List PageState) (k : Nat)
    (hk : 0 < k) (hkl : k ≤ pages.length)
    (hrun : ∀ p ∈ pages.take (k - 1), stops p = false)
    (hstop : stops (pages.get ⟨k - 1, by omega⟩) = true) :
    (harvestPages ujoin pages).2 = k := by
  induction pages generalizing k with
  | nil => simp at hkl; omega
  | cons p rest ih =>
    match k, hk with
    | 1, _ =>
      have hp : stops p = true := by simpa using hstop
      simp [harvestPages, hp]
    | n + 2, _ =>
      have hp : stops p = false := by
        apply hrun p
        have : n + 2 - 1 = n + 1 := rfl
        rw [this, List.take_succ_cons]
        exact List.mem_cons_self p _
      rw [harvestPages]
      simp only [hp, Bool.false_eq_true, if_false]
      have hrec : (harvestPages ujoin rest).2 = n + 1 := by
        apply ih (n + 1) (by omega) (by simp at hkl; omega)
        · intro q hq
          apply hrun q
          have : n + 2 - 1 = n + 1 := rfl
          rw [this, List.take_succ_cons]
          exact List.mem_cons_of_mem p (by simpa using hq)
        · simpa using hstop
      simp [hrec]

/-! ### Claim C3 -/

/-- C3, counterexample.  The claim puts the listing-stub phone LAST (a
fallback used only when all three page-derived steps miss).  On a page
with no `tel:` links whose contact-details text holds the valid phone
`8888888888`, and a stub phone `9876543210`, the claim's order
(`claimProfilePhone`) yields `8888888888` from step 3, while the code
keeps the seeded stub phone `9876543210` and never tries steps 2 and 3. -/
theorem profile_phone_order_refuted :
    pyLookup (scrape_profile_ok stubFix pageContactFix) "phone"
      = some (some "9876543210".data)
    ∧ claimProfilePhone stubFix.phone pageContactFix = some "8888888888".data
    ∧ ("9876543210".data : List Char) ≠ "8888888888".data := by
  decide

/-- C3, amended: the extracted phone obeys the priority
`tel:`-link step, then the pre-seeded normalized listing-stub phone, then
the contact-details-link step, then the contact-region regex step — the
stub phone outranks steps 2 and 3, and any step yielding an invalid
normalization is a miss. -/
theorem profile_phone_priority_spec (b : MemberStub) (pg : ProfilePage) :
    pyLookup (scrape_profile_ok b pg) "phone"
      = some (orO (telStep pg)
          (orO (normalize_phone b.phone)
            (orO (contactTelStep pg) (contactRegexStep pg)))) := by
  have hl : pyLookup (scrape_profile_ok b pg) "phone" = some (phoneSeq b pg) := by
    simp [scrape_profile_ok, pyLookup]
  rw [hl]
  simp only [phoneSeq]
  rw [ite_none_eq_orO, ite_none_eq_orO, orO_assoc, orO_assoc]

/-! ### Claim C7 -/

/-- C7 (confirmed): when both navigation attempts fail, `scrape_profile`
returns the degraded record carrying the stub's name/business/category and
its listing phone, no string value for any of the five section fields
(the four emitted section keys are null; `my_business` is omitted, which
the data model allows for degraded records), and the
`profile_goto_failed` error tag; the waits between/after attempts are
`600 * 1` and `600 * 2` milliseconds.  No caller retries: the chapter
worker maps each stub to a single `scrape_profile` call. -/
theorem nav_failure_degraded_record (goto : Nat → Except (List Char) Unit)
    (b : MemberStub) (pg : ProfilePage) (e0 e1 : List Char)
    (h0 : goto 0 = Except.error e0) (h1 : goto 1 = Except.error e1) :
    scrape_profile goto b pg = degradedGotoRecord b e1
    ∧ (scrape_profile_nav goto).2 = [600, 1200]
    ∧ pyLookup (degradedGotoRecord b e1) "name" = some (some b.name)
    ∧ pyLookup (degradedGotoRecord b e1) "business" = some (some b.business)
    ∧ pyLookup (degradedGotoRecord b e1) "category" = some (some b.category)
    ∧ pyLookup (degradedGotoRecord b e1) "phone" = some (pyOrNone b.phone)
    ∧ (∀ k ∈ sectionKeys, pyLookup (degradedGotoRecord b e1) k = none
        ∨ pyLookup (degradedGotoRecord b e1) k = some none)
    ∧ pyLookup (degradedGotoRecord b e1) "_error"
        = some (some ("profile_goto_failed: ".data ++ e1)) := by
  refine ⟨?_, ?_, ?_, ?_, ?_, ?_, ?_, ?_⟩
  · simp [scrape_profile, scrape_profile_nav, h0, h1]
  · simp [scrape_profile_nav, h0, h1]
  · simp [degradedGotoRecord, pyLookup]
  · simp [degradedGotoRecord, pyLookup]
  · simp [degradedGotoRecord, pyLookup]
  · simp [degradedGotoRecord, pyLookup]
  · intro k hk
    fin_cases hk <;> simp [degradedGotoRecord, pyLookup]
  · simp [degradedGotoRecord, pyLookup]

/-! ### Claim C9 -/

theorem applyHeading_not_target (sd : Sections) (h : List Char × List Char)
    (hh : pyStrip h.1 ∉ targetTitles) : applyHeading sd h = sd := by
  simp only [targetTitles, List.mem_cons, List.not_mem_nil, or_false, not_or] at hh
  obtain ⟨h1, h2, h3, h4, h5⟩ := hh
  simp [applyHeading, h1, h2, h3, h4, h5]

theorem sectionsOf_eq_init (hs : List (List Char × List Char))
    (hh : ∀ h ∈ hs, pyStrip h.1 ∉ targetTitles) :
    sectionsOf hs = initSections := by
  induction hs with
  | nil => rfl
  | cons h t ih =>
    simp only [sectionsOf, List.foldl_cons]
    rw [applyHeading_not_target _ _ (hh h (List.mem_cons_self h t))]
    exact ih (fun q hq => hh q (List.mem_cons_of_mem h hq))

/-- C9 (confirmed): on a successfully loaded page with none of the five
recognized headings (and no dedicated `My Business` block), the record has
all five section keys present with null values and carries no error tag. -/
theorem section_null_default (goto : Nat → Except (List Char) Unit)
    (b : MemberStub) (pg : ProfilePage)
    (hnav : (scrape_profile_nav goto).1 = none)
    (hh : ∀ h ∈ pg.headings, pyStrip h.1 ∉ targetTitles)
    (hmb : pyStrip pg.myBusinessEval = []) :
    pyLookup (scrape_profile goto b pg) "my_business" = some none
    ∧ pyLookup (scrape_profile goto b pg) "top_product" = some none
    ∧ pyLookup (scrape_profile goto b pg) "ideal_referral" = some none
    ∧ pyLookup (scrape_profile goto b pg) "top_problem_solved" = some none
    ∧ pyLookup (scrape_profile goto b pg) "my_favourite_bni_story" = some none
    ∧ pyLookup (scrape_profile goto b pg) "_error" = none := by
  have hfull : scrape_profile goto b pg = scrape_profile_ok b pg := by
    simp [scrape_profile, hnav]
  have hsd : sectionsOf pg.headings = initSections := sectionsOf_eq_init pg.headings hh
  have hmb2 : myBusinessOf pg = none := by
    simp [myBusinessOf, hmb, hsd, initSections]
  rw [hfull]
  refine ⟨?_, ?_, ?_, ?_, ?_, ?_⟩ <;>
    simp [scrape_profile_ok, pyLookup, hsd, hmb2, initSections]

/-! ### Claim C4 -/

/-- C4 (confirmed): when exactly one profile's fetch fails — here: raises,
while every other fetch returns cleanly (no error tag) — the chapter still
produces one record per stub, exactly one of them carries a non-null error
tag, and that record sits at the failing stub's position carrying the
stub's fields and the attempted profile URL. -/
theorem chapter_partial_failure_isolation (ch : List Char)
    (fetch : MemberStub → Except (List Char) RecordAssoc)
    (pre post : List MemberStub) (b : MemberStub) (e : List Char)
    (hb : fetch b = Except.error e)
    (hok : ∀ x ∈ pre ++ post,
      ∃ d, fetch x = Except.ok d ∧ pyLookup d "_error" = none) :
    (chapterMembers ch fetch (pre ++ b :: post)).length
        = (pre ++ b :: post).length
    ∧ (chapterMembers ch fetch (pre ++ b :: post)).countP errTag = 1
    ∧ (chapterMembers ch fetch (pre ++ b :: post))[pre.length]?
        = some (pyDictSet (degradedWorkerRecord b e) "chapter" (some ch))
    ∧ pyLookup (pyDictSet (degradedWorkerRecord b e) "chapter" (some ch)) "_error"
        = some (some ("profile_failed: ".data ++ e))
    ∧ pyLookup (pyDictSet (degradedWorkerRecord b e) "chapter" (some ch)) "_profile_url"
        = some (some b.profileUrl)
    ∧ pyLookup (pyDictSet (degradedWorkerRecord b e) "chapter" (some ch)) "name"
        = some (some b.name)
    ∧ pyLookup (pyDictSet (degradedWorkerRecord b e) "chapter" (some ch)) "business"
        = some (some b.business)
    ∧ pyLookup (pyDictSet (degradedWorkerRecord b e) "chapter" (some ch)) "category"
        = some (some b.category)
    ∧ pyLookup (pyDictSet (degradedWorkerRecord b e) "chapter" (some ch)) "phone"
        = some (pyOrNone b.phone)
    ∧ pyLookup (pyDictSet (degradedWorkerRecord b e) "chapter" (some ch)) "chapter"
        = some (some ch) := by
  have hwb : worker ch fetch b
      = pyDictSet (degradedWorkerRecord b e) "chapter" (some ch) := by
    simp [worker, hb]
  have herrb : errTag (worker ch fetch b) = true := by
    rw [hwb]
    have hlk : pyLookup (pyDictSet (degradedWorkerRecord b e) "chapter" (some ch))
        "_error" = some (some ("profile_failed: ".data ++ e)) := by
      rw [pyLookup_pyDictSet]
      simp [degradedWorkerRecord, pyLookup]
    simp [errTag, hlk]
  have herrok : ∀ x ∈ pre ++ post, errTag (worker ch fetch x) = false := by
    intro x hx
    rcases hok x hx with ⟨d, hd, hde⟩
    have : pyLookup (pyDictSet d "chapter" (some ch)) "_error" = none := by
      rw [pyLookup_pyDictSet, if_neg (by decide), hde]
    simp [worker, hd, errTag, this]
  refine ⟨?_, ?_, ?_, ?_, ?_, ?_, ?_, ?_, ?_, ?_⟩
  · simp [chapterMembers]
  · simp only [chapterMembers, List.countP_map, List.countP_append,
      List.countP_cons]
    have h1 : List.countP (errTag ∘ worker ch fetch) pre = 0 :=
      List.countP_eq_zero.mpr (fun x hx => by
        simp [Function.comp, herrok x (List.mem_append_left post hx)])
    have h2 : List.countP (errTag ∘ worker ch fetch) post = 0 :=
      List.countP_eq_zero.mpr (fun x hx => by
        simp [Function.comp, herrok x (List.mem_append_right pre hx)])
    simp only [Function.comp] at h1 h2
    rw [h1, h2]
    simp [Function.comp, herrb]
  · rw [chapterMembers, List.getElem?_map,
      List.getElem?_append_right (le_refl pre.length)]
    simp [hwb]
  · rw [pyLookup_pyDictSet]; simp [degradedWorkerRecord, pyLookup]
  · rw [pyLookup_pyDictSet]; simp [degradedWorkerRecord, pyLookup]
  · rw [pyLookup_pyDictSet]; simp [degradedWorkerRecord, pyLookup]
  · rw [pyLookup_pyDictSet]; simp [degradedWorkerRecord, pyLookup]
  · rw [pyLookup_pyDictSet]; simp [degradedWorkerRecord, pyLookup]
  · rw [pyLookup_pyDictSet]; simp [degradedWorkerRecord, pyLookup]
  · rw [pyLookup_pyDictSet]; simp

/-! ### Claim C8 -/

/-- C8, counterexample.  The claim says output objects use exactly the
data-model field names (`myBusiness`, `topProduct`, ...).  A successful
record actually uses the snake_case key `my_business` (not a listed name)
and contains no `myBusiness` key. -/
theorem output_field_names_refuted :
    "my_business" ∈ pyKeys (pyDictSet (scrape_profile_ok stubFix pageEmptyFix)
        "chapter" (some "Ch".data))
    ∧ "my_business" ∉ specFieldNames
    ∧ "myBusiness" ∈ specFieldNames
    ∧ "myBusiness" ∉ pyKeys (pyDictSet (scrape_profile_ok stubFix pageEmptyFix)
        "chapter" (some "Ch".data)) := by
  decide

/-- C8, amended: each record in a chapter's output is a JSON object whose
keys are, in order — successful records:
`name, business, category, phone, my_business, top_product, ideal_referral,
top_problem_solved, my_favourite_bni_story, chapter`; navigation-degraded
records drop `my_business` and carry `_error`; worker-degraded records
additionally carry `_profile_url`.  (Pretty-printing/UTF-8 of the
serialization itself is not modelled.) -/
theorem output_field_names_snake_case (ch : List Char) (b : MemberStub)
    (pg : ProfilePage) (e : List Char) :
    pyKeys (pyDictSet (scrape_profile_ok b pg) "chapter" (some ch))
      = ["name", "business", "category", "phone", "my_business", "top_product",
         "ideal_referral", "top_problem_solved", "my_favourite_bni_story",
         "chapter"]
    ∧ pyKeys (pyDictSet (degradedGotoRecord b e) "chapter" (some ch))
      = ["name", "business", "category", "phone", "top_product",
         "ideal_referral", "top_problem_solved", "my_favourite_bni_story",
         "_error", "chapter"]
    ∧ pyKeys (pyDictSet (degradedWorkerRecord b e) "chapter" (some ch))
      = ["name", "business", "category", "phone", "top_product",
         "ideal_referral", "top_problem_solved", "my_favourite_bni_story",
         "_error", "_profile_url", "chapter"] := by
  refine ⟨?_, ?_, ?_⟩ <;> rfl

/-! ### Claim C10 -/

/-- C10 (confirmed): a listing row whose first cell has no anchor, or whose
anchor lacks an `href`, is skipped even with 3 or more cells; and every
produced stub comes from a row whose first cell has an anchor with a
non-empty `href`. -/
theorem row_skip_without_link (ujoin : List Char → List Char → List Char)
    (pageUrl : List Char) (c0 c1 c2 : Cell) (rest : List Cell) :
    (c0.anchor = none → processRow ujoin pageUrl ⟨c0 :: c1 :: c2 :: rest⟩ = none)
    ∧ (∀ link, c0.anchor = some link → link.href = none →
        processRow ujoin pageUrl ⟨c0 :: c1 :: c2 :: rest⟩ = none)
    ∧ (∀ s, processRow ujoin pageUrl ⟨c0 :: c1 :: c2 :: rest⟩ = some s →
        ∃ link href, c0.anchor = some link ∧ link.href = some href
          ∧ href ≠ []) := by
  have hshape : processRow ujoin pageUrl ⟨c0 :: c1 :: c2 :: rest⟩
      = (match c0.anchor with
         | none => none
         | some link =>
           match link.href with
           | none => none
           | some href =>
             if href.isEmpty then none
             else some ⟨pyStrip link.text, pyStrip c1.innerText,
                        pyStrip c2.innerText,
                        rowPhone (c0 :: c1 :: c2 :: rest),
                        ujoin pageUrl href⟩) := rfl
  refine ⟨?_, ?_, ?_⟩
  · intro hA
    simp only [hshape, hA]
  · intro link hA hH
    simp only [hshape, hA, hH]
  · intro s hs
    simp only [hshape] at hs
    rcases hA : c0.anchor with _ | link
    · simp only [hA] at hs; simp at hs
    · simp only [hA] at hs
      rcases hH : link.href with _ | href
      · simp only [hH] at hs; simp at hs
      · simp only [hH] at hs
        by_cases hE : href.isEmpty
        · rw [if_pos hE] at hs; simp at hs
        · exact ⟨link, href, rfl, hH, by simpa [List.isEmpty_iff] using hE⟩

/-! ### Witnesses: the hypothesis-carrying theorems applied at concrete
inputs -/

/-- Witness for C6: a two-page listing whose Next control is disabled on
page 2 is harvested in exactly 2 page visits. -/
theorem pagination_visits_exactly_k_witness :
    (harvestPages ujFix pagesFix).2 = 2 :=
  pagination_visits_exactly_k ujFix pagesFix 2 (by decide) (by decide)
    (by decide) (by decide)

/-- Witness for C7: with navigation failing on both attempts, the scraper
returns the degraded goto record. -/
theorem nav_failure_degraded_record_witness :
    scrape_profile gotoFailFix stubFix pageEmptyFix
      = degradedGotoRecord stubFix "timeout".data :=
  (nav_failure_degraded_record gotoFailFix stubFix pageEmptyFix
    "timeout".data "timeout".data rfl rfl).1

/-- Witness for C9: a loaded page with no recognized headings yields a
record whose `my_business` key is present and null. -/
theorem section_null_default_witness :
    pyLookup (scrape_profile gotoOkFix stubFix pageEmptyFix) "my_business"
      = some none :=
  (section_null_default gotoOkFix stubFix pageEmptyFix rfl (by decide) rfl).1

/-- Witness for C4: three stubs with the middle fetch raising produce
exactly one error-tagged record. -/
theorem chapter_partial_failure_isolation_witness :
    (chapterMembers "Ch".data fetchFix [stubFix1, stubFix2, stubFix3]).countP
      errTag = 1 :=
  (chapter_partial_failure_isolation "Ch".data fetchFix [stubFix1] [stubFix3]
    stubFix2 "boom".data rfl
    (by intro x hx; fin_cases hx <;> exact ⟨[], rfl, rfl⟩)).2.1

/-- Witness for C10: a three-cell row without an anchor in its first cell
produces no stub. -/
theorem row_skip_without_link_witness :
    processRow ujFix "p".data rowNoAnchorFix = none :=
  (row_skip_without_link ujFix "p".data cellN cellN cellN []).1 rfl

end BniScrape

/-!
Scenario checks from the specification and the regex semantics, kept as
executable evidence that the embedding matches the Python behaviour.
-/

open BniScrape in
example : normalize_phone (some "+91 98765-43210".data) = some "9876543210".data := by decide

open BniScrape in
example : normalize_phone (some "12345".data) = none := by decide

open BniScrape in
example : stripTelAll "tel:+9198tel:76543210".data = "+919876543210".data := by decide

open BniScrape in
example : reSearchMobile "call +91 9876543210 now".data = some "9876543210".data := by decide

open BniScrape in
example : reSearchMobile "911234567890".data = some "9112345678".data := by decide

open BniScrape in
example : reSearchMobile "abc 51234567896".data = none := by decide

open BniScrape in
example : bdiSearch "<td><BDI dir=x>98765 43210</bdi></td>".data = some "98765 43210".data := by decide
